import Mathlib

/-!
# Verification of the KMo prompt-library core (`pb4.py`)

Shallow embedding of the data model and operations of `pb4.py`:

* the tabular store (`DataManager.load_data` / `save_data` / `save_prompt`),
  modelled over an abstract file system mapping filenames to CSV record
  lists (header record first, one record per row);
* the prompt composer (`PromptBuilder._generate_prompt`), modelled as a pure
  function from the ordered per-section selections and the element table to
  an optional prompt string (`none` models the `IndexError` raised by an
  unguarded `.values[0]` lookup);
* the element editor's delete operation and the prompt browser's
  newest-first listing and CSV export.

Machine-level concerns (streamlit widgets, byte encoding of files) are out
of scope; CSV files are modelled at the record level, and the exported CSV
text is rebuilt with the same minimal-quoting rule pandas uses.
-/

set_option autoImplicit false

namespace PB4

/-! ## Data model -/

/-- One row of the `prompt_elements.csv` table: `title`, `type` (the
category) and `content`, exactly the columns of `CSV_COLUMNS`. -/
structure Element where
  title : String
  type : String
  content : String
deriving DecidableEq, Repr

/-- A user selection for one section of the prompt builder: a
single-select section yields one string, a multi-select section a list of
strings (`st.selectbox` vs `st.multiselect` in `_create_section`). -/
inductive Selection where
  | single (s : String)
  | multi (ss : List String)
deriving DecidableEq, Repr

/-- The per-section data `_create_section` returns: the selection and the
custom text entered when "Write your own" is chosen (empty otherwise). The
`elements` sub-table it also returns is never read by `_generate_prompt`,
so it is not modelled. -/
structure SectionData where
  selected : Selection
  custom : String
deriving DecidableEq, Repr

/-! ## Composer (`PromptBuilder._generate_prompt`) -/

/-- Python's `str.title()` on a character list: an alphabetic character is
uppercased when the previous character is not alphabetic and lowercased
otherwise. -/
def pyTitleAux : Bool → List Char → List Char
  | _, [] => []
  | prevAlpha, c :: cs =>
    (if c.isAlpha then (if prevAlpha then c.toLower else c.toUpper) else c)
      :: pyTitleAux c.isAlpha cs

/-- Python's `str.title()`, used for `section.title()` at line 217. -/
def pyTitle (s : String) : String := ⟨pyTitleAux false s.data⟩

/-- `df[df['title'] == s]['content'].values[0]`: the content of the first
element of the whole table whose title equals `s`; `none` when no row
matches (Python raises `IndexError`). The filter is on `title` only — it is
not restricted to the section's category. -/
def lookupContent (df : List Element) (s : String) : Option String :=
  ((df.filter fun e => e.title = s).head?).map Element.content

/-- The list comprehension at line 223:
`[df[df['title'] == s]['content'].values[0] for s in sel if ...]` applied
to an already-filtered selection list; `none` as soon as one lookup fails. -/
def resolveList (df : List Element) : List String → Option (List String)
  | [] => some []
  | s :: ss =>
    match lookupContent df s, resolveList df ss with
    | some c, some cs => some (c :: cs)
    | _, _ => none

/-- The omission test at line 214:
`sel == "Skip" or (isinstance(sel, list) and (not sel or "Skip" in sel))`. -/
def isSkipped : Selection → Bool
  | Selection.single s => s = "Skip"
  | Selection.multi ss => ss.isEmpty || ss.contains "Skip"

/-- The loop body of `_generate_prompt` (lines 211-228): the list
`prompt_parts` accumulated over the sections in order, `none` when a
lookup raises. -/
def generateParts : List (String × SectionData) → List Element → Option (List String)
  | [], _ => some []
  | (sec, d) :: rest, df =>
    match d.selected with
    | Selection.single s =>
      if s = "Skip" then generateParts rest df
      else
        match (if s = "Write your own" then some d.custom else lookupContent df s),
            generateParts rest df with
        | some content, some parts =>
          some ((pyTitle sec ++ ": " ++ content) :: parts)
        | _, _ => none
    | Selection.multi ss =>
      if ss.isEmpty || ss.contains "Skip" then generateParts rest df
      else
        match resolveList df (ss.filter fun s => ¬(s = "Skip" ∨ s = "Write your own")),
            generateParts rest df with
        | some contents, some parts =>
          some ((pyTitle sec ++ ":\n" ++ String.intercalate "\n"
            ((if ss.contains "Write your own" then [d.custom] else []) ++ contents)) :: parts)
        | _, _ => none

/-- The element titles `_generate_prompt` looks up: for each non-omitted
section, the single selected title (unless it is `Skip` or
`Write your own`) or the multi-selected titles with `Skip` and
`Write your own` filtered out, in section order. Mirrors exactly the
branches of `generateParts` that reach a lookup. -/
def referencedTitles : List (String × SectionData) → List String
  | [] => []
  | (_, d) :: rest =>
    (match d.selected with
     | Selection.single s =>
       if s = "Skip" then [] else if s = "Write your own" then [] else [s]
     | Selection.multi ss =>
       if ss.isEmpty || ss.contains "Skip" then []
       else ss.filter fun s => ¬(s = "Skip" ∨ s = "Write your own"))
    ++ referencedTitles rest

/-- Two element tables that agree everywhere except possibly on the stored
`content` of elements titled `"Skip"` or `"Write your own"`. -/
def ReservedAgree (df df' : List Element) : Prop :=
  List.Forall₂ (fun e e' => e.title = e'.title ∧ e.type = e'.type
    ∧ (e.title ≠ "Skip" → e.title ≠ "Write your own" → e.content = e'.content)) df df'

/-- `PromptBuilder._generate_prompt` (lines 209-233): join the parts with a
blank line and append the feedback suffix when requested. -/
def generate_prompt (sels : List (String × SectionData)) (df : List Element)
    (recursive_feedback : Bool) : Option String :=
  match generateParts sels df with
  | none => none
  | some parts =>
    let prompt := String.intercalate "\n\n" parts
    some (if recursive_feedback
      then prompt ++ "\n\nBefore you provide the response, please ask me any questions..."
      else prompt)

/-! ## Tabular store (`DataManager`) -/

/-- The fixed column schema of `prompt_elements.csv` (`CSV_COLUMNS`,
line 9). -/
def CSV_COLUMNS : List String := ["title", "type", "content"]

/-- The fixed column schema of `prompt_history.csv`
(`PROMPT_HISTORY_COLUMNS`, line 10). -/
def PROMPT_HISTORY_COLUMNS : List String := ["name", "timestamp", "prompt"]

/-- A parsed data frame: the header row and the data rows, each a list of
string fields. -/
structure Table where
  columns : List String
  rows : List (List String)
deriving DecidableEq, Repr

/-- The local disk, at CSV record granularity: a filename maps to the list
of records of the file (header record first), or to `none` when the file
does not exist. -/
def FileSystem : Type := String → Option (List (List String))

/-- `DataManager.load_data` (lines 68-74): when the file is absent, create
it holding only the header and return the empty table; otherwise parse the
existing records, the first record being the header (`pd.read_csv`). A
present but record-less file is `none` (pandas raises `EmptyDataError`).
Returns the table together with the possibly-updated file system. -/
def load_data (fs : FileSystem) (filename : String) (columns : List String) :
    Option (Table × FileSystem) :=
  match fs filename with
  | none =>
    some (⟨columns, []⟩, fun f => if f = filename then some [columns] else fs f)
  | some [] => none
  | some (header :: rest) => some (⟨header, rest⟩, fs)

/-- `DataManager.save_data` (lines 76-78): overwrite the file with the
header record followed by the data rows. -/
def save_data (fs : FileSystem) (df : Table) (filename : String) : FileSystem :=
  fun f => if f = filename then some (df.columns :: df.rows) else fs f

/-- `DataManager.save_prompt` (lines 80-90): load the history, append the
`[name, timestamp, prompt]` row, save. The timestamp string is a parameter
(`datetime.now().strftime(...)` in the source). -/
def save_prompt (fs : FileSystem) (name ts prompt : String) : Option FileSystem :=
  (load_data fs "prompt_history.csv" PROMPT_HISTORY_COLUMNS).map fun r =>
    save_data r.2 ⟨r.1.columns, r.1.rows ++ [[name, ts, prompt]]⟩ "prompt_history.csv"

/-! ## Prompt browser (`PromptBrowser.render`) -/

/-- Reading an existing CSV file into a data frame (`pd.read_csv` at
line 256): `none` when the file is absent or has no records. -/
def readTable (fs : FileSystem) (filename : String) : Option Table :=
  match fs filename with
  | none => none
  | some [] => none
  | some (header :: rest) => some ⟨header, rest⟩

/-- The browsing order of `PromptBrowser.render` (line 269,
`df.iloc[::-1]`): the stored history rows, newest first. -/
def listDescending (fs : FileSystem) : Option (List (List String)) :=
  (readTable fs "prompt_history.csv").map fun df => df.rows.reverse

/-- pandas `to_csv` minimal quoting: a field is quoted when it contains a
comma, a double quote, or a line break. -/
def needsQuoting (s : String) : Bool :=
  s.data.any fun c => c = ',' || c = '"' || c = '\n' || c = '\r'

/-- Doubling every double quote in a field body, character by character. -/
def doubleQuotes : List Char → List Char
  | [] => []
  | c :: cs =>
    if c = '"' then '"' :: '"' :: doubleQuotes cs else c :: doubleQuotes cs

/-- A CSV field as written by `to_csv`: quoted with inner quotes doubled
when needed, verbatim otherwise. -/
def escapeField (s : String) : String :=
  if needsQuoting s then "\"" ++ ⟨doubleQuotes s.data⟩ ++ "\"" else s

/-- One CSV line as written by `to_csv`: comma-joined escaped fields plus
the line terminator. -/
def rowLine (r : List String) : String :=
  String.intercalate "," (r.map escapeField) ++ "\n"

/-- The concatenated CSV lines of a list of records. -/
def csvLines : List (List String) → String
  | [] => ""
  | r :: rs => rowLine r ++ csvLines rs

/-- `df.to_csv(index=False)` of a data frame (line 260): the header line
followed by one line per row. -/
def toCsvString (df : Table) : String := csvLines (df.columns :: df.rows)

/-- The byte payload of the history download button (lines 260-266):
the full history file rendered back to CSV text. -/
def exportAsText (fs : FileSystem) : Option String :=
  (readTable fs "prompt_history.csv").map toCsvString

/-! ## Element editor delete (`ElementEditor.render`, lines 161-167) -/

/-- The delete branch: reload the elements, `df.drop(index)` on the row at
position `p` (positions and index labels coincide on a freshly loaded
frame), save. `none` when `p` is not a valid label (`drop` raises
`KeyError`). -/
def deleteElement (fs : FileSystem) (p : Nat) : Option FileSystem :=
  (load_data fs "prompt_elements.csv" CSV_COLUMNS).bind fun r =>
    if p < r.1.rows.length then
      some (save_data r.2 ⟨r.1.columns, r.1.rows.eraseIdx p⟩ "prompt_elements.csv")
    else none

end PB4

section Scratch
open PB4
example : pyTitle "audience" = "Audience" := by decide
example : generateParts [("role", ⟨Selection.single "Skip", ""⟩)] [] = some [] := rfl
example :
    generateParts [("role", ⟨Selection.single "Write your own", "Assistant"⟩)] []
      = some ["Role: Assistant"] := rfl
example :
    generateParts [("audience", ⟨Selection.multi ["Write your own", "A", "B"], "X"⟩)]
      [⟨"B", "audience", "b"⟩, ⟨"A", "audience", "a"⟩]
      = some ["Audience:\nX\na\nb"] := rfl
example :
    generateParts [("audience", ⟨Selection.multi ["Skip", "A"], ""⟩)]
      [⟨"A", "audience", "a"⟩] = some [] := rfl
example : generate_prompt [("role", ⟨Selection.single "Skip", ""⟩)] [] true
    = some "\n\nBefore you provide the response, please ask me any questions..." := rfl
example : generateParts [("goal", ⟨Selection.single "T", ""⟩)]
    [⟨"T", "role", "rc"⟩, ⟨"T", "goal", "gc"⟩] = some ["Goal: rc"] := rfl
example : rowLine PROMPT_HISTORY_COLUMNS = "name,timestamp,prompt\n" := rfl
example : (load_data (fun _ => none) "x.csv" CSV_COLUMNS).map (fun r => r.1)
    = some ⟨CSV_COLUMNS, []⟩ := rfl
example : (save_prompt (fun _ => none) "demo" "t0" "hello").bind listDescending
    = some [["demo", "t0", "hello"]] := rfl
example : (save_prompt (fun _ => none) "demo" "t0" "hello").bind exportAsText
    = some "name,timestamp,prompt\ndemo,t0,hello\n" := rfl
end Scratch

namespace PB4

/-! ## Helper lemmas -/

/-- All-skip selections contribute no parts. -/
theorem generateParts_all_skipped (sels : List (String × SectionData)) (df : List Element)
    (h : ∀ p ∈ sels, isSkipped p.2.selected = true) :
    generateParts sels df = some [] := by
  induction sels with
  | nil => rfl
  | cons p rest ih =>
    obtain ⟨sec, d⟩ := p
    have hd : isSkipped d.selected = true := h _ (List.mem_cons_self _ _)
    have hrest := ih fun q hq => h q (List.mem_cons_of_mem _ hq)
    cases hsel : d.selected with
    | single s =>
      have hs : s = "Skip" := by simpa [isSkipped, hsel] using hd
      simp only [generateParts, hsel]
      rw [if_pos hs]
      exact hrest
    | multi ss =>
      have hs : (ss.isEmpty || ss.contains "Skip") = true := by
        simpa [isSkipped, hsel] using hd
      simp only [generateParts, hsel]
      rw [if_pos hs]
      exact hrest

/-- The head of a filtered list is the first element satisfying the
predicate. -/
theorem head?_filter_eq_find? {α : Type} (p : α → Bool) (l : List α) :
    (l.filter p).head? = l.find? p := by
  induction l with
  | nil => rfl
  | cons a l ih =>
    cases h : p a with
    | true => simp [List.filter_cons, h]
    | false => simp [List.filter_cons, h, ih]

/-- A title lookup fails exactly when no element of the table carries the
title. -/
theorem lookupContent_eq_none_iff (df : List Element) (s : String) :
    lookupContent df s = none ↔ ∀ e ∈ df, e.title ≠ s := by
  simp [lookupContent, List.head?_eq_none_iff, List.filter_eq_nil_iff]

/-- Resolving a selection list fails exactly when one of its titles fails
to resolve. -/
theorem resolveList_eq_none_iff (df : List Element) (l : List String) :
    resolveList df l = none ↔ ∃ s ∈ l, lookupContent df s = none := by
  induction l with
  | nil => simp [resolveList]
  | cons s ss ih =>
    simp only [resolveList]
    cases hc : lookupContent df s with
    | none => simp [hc]
    | some c =>
      cases hr : resolveList df ss with
      | none =>
        simp only [List.mem_cons]
        constructor
        · intro _
          obtain ⟨x, hx, hlx⟩ := ih.mp hr
          exact ⟨x, Or.inr hx, hlx⟩
        · intro _; trivial
      | some cs =>
        simp only [List.mem_cons, reduceCtorEq, false_iff, not_exists, not_and]
        rintro x (rfl | hx)
        · simp [hc]
        · intro hlx
          exact absurd (ih.mpr ⟨x, hx, hlx⟩) (by simp [hr])

/-- Resolving a selection list of everywhere-resolvable titles maps the
resolution over the list, preserving order. -/
theorem resolveList_eq_map (df : List Element) (l : List String) (f : String → String)
    (h : ∀ s ∈ l, lookupContent df s = some (f s)) :
    resolveList df l = some (l.map f) := by
  induction l with
  | nil => rfl
  | cons s ss ih =>
    have hs := h s (List.mem_cons_self _ _)
    have hss := ih fun x hx => h x (List.mem_cons_of_mem _ hx)
    simp [resolveList, hs, hss]

/-! ## C1: which categories are omitted -/

/-- Counterexample to C1 as stated: the multi-selection `["Skip", "A"]`
contains the entry `"A"` distinct from `Skip`, yet `_generate_prompt`
omits the category (line 214 skips whenever `"Skip" in sel`). -/
theorem C1_counterexample :
    ("A" ∈ (["Skip", "A"] : List String) ∧ ("A" : String) ≠ "Skip")
    ∧ generateParts [("audience", ⟨Selection.multi ["Skip", "A"], ""⟩)]
        [⟨"A", "audience", "a"⟩] = some [] :=
  ⟨by decide, rfl⟩

/-- C1 amended: a category is omitted exactly when its selection is
`Skip`, an empty multi-selection, or a multi-selection containing `Skip`
anywhere among its entries (not merely consisting only of `Skip`): a
skipped section leaves the parts unchanged, and a non-skipped section
prepends exactly one part labelled with the section's title. -/
theorem C1_omission_iff_skipped (df : List Element) (sec : String) (d : SectionData)
    (rest : List (String × SectionData)) (parts : List String)
    (h : generateParts ((sec, d) :: rest) df = some parts) :
    (isSkipped d.selected = true → generateParts rest df = some parts)
    ∧ (isSkipped d.selected = false →
        ∃ c tl, parts = c :: tl ∧ generateParts rest df = some tl
          ∧ ∃ body, c = pyTitle sec ++ body) := by
  cases hsel : d.selected with
  | single s =>
    have hiss : isSkipped (Selection.single s) = decide (s = "Skip") := rfl
    simp only [generateParts, hsel] at h
    by_cases hskip : s = "Skip"
    · rw [if_pos hskip] at h
      refine ⟨fun _ => h, fun hfalse => absurd hskip ?_⟩
      rw [hiss] at hfalse
      exact of_decide_eq_false hfalse
    · rw [if_neg hskip] at h
      refine ⟨fun htrue => absurd (of_decide_eq_true (hiss ▸ htrue)) hskip, fun _ => ?_⟩
      split at h
      · next content parts' hc hrest =>
        exact ⟨pyTitle sec ++ ": " ++ content, parts', (Option.some.inj h).symm, hrest,
          ": " ++ content, String.append_assoc _ _ _⟩
      · exact absurd h (by simp)
  | multi ss =>
    have hiss : isSkipped (Selection.multi ss) = (ss.isEmpty || ss.contains "Skip") := rfl
    simp only [generateParts, hsel] at h
    by_cases hskip : (ss.isEmpty || ss.contains "Skip") = true
    · rw [if_pos hskip] at h
      refine ⟨fun _ => h, fun hfalse => ?_⟩
      rw [hiss] at hfalse
      rw [hfalse] at hskip
      exact absurd hskip (by decide)
    · rw [if_neg hskip] at h
      refine ⟨fun htrue => absurd (hiss ▸ htrue) hskip, fun _ => ?_⟩
      split at h
      · next contents parts' hc hrest =>
        exact ⟨_, parts', (Option.some.inj h).symm, hrest,
          ":\n" ++ String.intercalate "\n"
            ((if ss.contains "Write your own" then [d.custom] else []) ++ contents),
          String.append_assoc _ _ _⟩
      · exact absurd h (by simp)

/-- Witness for C1 at a one-entry multi-selection that is not skipped. -/
theorem C1_witness :
    (isSkipped (SectionData.mk (Selection.multi ["A"]) "").selected = true →
        generateParts [] [⟨"A", "audience", "a"⟩] = some ["Audience:\na"])
    ∧ (isSkipped (SectionData.mk (Selection.multi ["A"]) "").selected = false →
        ∃ c tl, ["Audience:\na"] = c :: tl
          ∧ generateParts [] [⟨"A", "audience", "a"⟩] = some tl
          ∧ ∃ body, c = pyTitle "audience" ++ body) :=
  C1_omission_iff_skipped [⟨"A", "audience", "a"⟩] "audience"
    ⟨Selection.multi ["A"], ""⟩ [] ["Audience:\na"] rfl

/-! ## C3: single-selection title lookup -/

/-- Counterexample to C3 as stated: the single selection `"T"` for the
`goal` section emits `"rc"`, the content of the `role`-category element
titled `"T"` stored first, although the (unique) `goal`-category element
titled `"T"` has content `"gc"` — the lookup at line 227 is over the full
table, not scoped to the section's category. -/
theorem C3_counterexample :
    generateParts [("goal", ⟨Selection.single "T", ""⟩)]
        [⟨"T", "role", "rc"⟩, ⟨"T", "goal", "gc"⟩] = some ["Goal: rc"]
    ∧ (∀ e ∈ ([⟨"T", "role", "rc"⟩, ⟨"T", "goal", "gc"⟩] : List Element),
        e.type = "goal" → e.title = "T" → e.content = "gc")
    ∧ ("rc" : String) ≠ "gc" :=
  ⟨rfl, by decide, by decide⟩

/-- C3 amended: for a single-selection reference to an element title, the
content emitted is the content of the first element anywhere in the full
element table whose title equals the chosen title, regardless of its
category; the lookup is not scoped to the section's elements. -/
theorem C3_lookup_unscoped (df : List Element) (sec s cust : String)
    (rest : List (String × SectionData)) (parts : List String)
    (hs : s ≠ "Skip") (hw : s ≠ "Write your own")
    (h : generateParts ((sec, ⟨Selection.single s, cust⟩) :: rest) df = some parts) :
    ∃ e tl, df.find? (fun e => e.title = s) = some e ∧ e ∈ df ∧ e.title = s
      ∧ parts = (pyTitle sec ++ ": " ++ e.content) :: tl
      ∧ generateParts rest df = some tl := by
  simp only [generateParts] at h
  rw [if_neg hs, if_neg hw] at h
  split at h
  · next content tl hc hrest =>
    rw [lookupContent, head?_filter_eq_find?, Option.map_eq_some'] at hc
    obtain ⟨e, hfind, hcontent⟩ := hc
    have hpe := @List.find?_some _ _ _ _ hfind
    exact ⟨e, tl, hfind, List.mem_of_find?_eq_some hfind,
      of_decide_eq_true hpe, by rw [hcontent]; exact (Option.some.inj h).symm,
      hrest⟩
  · exact absurd h (by simp)

/-- Witness for C3 at a one-element table. -/
theorem C3_witness :
    ∃ e tl, ([⟨"A", "role", "a"⟩] : List Element).find? (fun e => e.title = "A") = some e
      ∧ e ∈ ([⟨"A", "role", "a"⟩] : List Element) ∧ e.title = "A"
      ∧ ["Role: a"] = (pyTitle "role" ++ ": " ++ e.content) :: tl
      ∧ generateParts [] [⟨"A", "role", "a"⟩] = some tl :=
  C3_lookup_unscoped [⟨"A", "role", "a"⟩] "role" "A" "" [] ["Role: a"]
    (by decide) (by decide) rfl

/-! ## C4: lookup failure -/

/-- C4: `_generate_prompt` fails exactly when some title referenced by a
non-omitted selection is absent from the element table: it errors whenever
such a title is missing, and succeeds whenever every referenced title is
present. -/
theorem C4_lookup_failure_iff (sels : List (String × SectionData)) (df : List Element) :
    generateParts sels df = none
      ↔ ∃ s ∈ referencedTitles sels, ∀ e ∈ df, e.title ≠ s := by
  induction sels with
  | nil => simp [generateParts, referencedTitles]
  | cons p rest ih =>
    obtain ⟨sec, d⟩ := p
    obtain ⟨sel, cust⟩ := d
    cases sel with
    | single s =>
      by_cases h1 : s = "Skip"
      · simp only [generateParts, referencedTitles]
        rw [if_pos h1, if_pos h1]
        simpa using ih
      · by_cases h2 : s = "Write your own"
        · simp only [generateParts, referencedTitles]
          rw [if_neg h1, if_neg h1, if_pos h2, if_pos h2]
          cases hr : generateParts rest df with
          | none =>
            simp only [List.nil_append]
            constructor
            · intro _
              exact ih.mp hr
            · intro _
              trivial
          | some tl =>
            simp only [List.nil_append]
            constructor
            · intro hcontr
              exact absurd hcontr (by simp)
            · intro hex
              exact absurd (ih.mpr hex) (by simp [hr])
        · simp only [generateParts, referencedTitles]
          rw [if_neg h1, if_neg h1, if_neg h2, if_neg h2]
          cases hc : lookupContent df s with
          | none =>
            constructor
            · intro _
              exact ⟨s, List.mem_append_left _ (List.mem_singleton.mpr rfl),
                (lookupContent_eq_none_iff df s).mp hc⟩
            · intro _
              trivial
          | some c =>
            cases hr : generateParts rest df with
            | none =>
              constructor
              · intro _
                obtain ⟨x, hx, hlx⟩ := ih.mp hr
                exact ⟨x, List.mem_append_right _ hx, hlx⟩
              · intro _
                rfl
            | some tl =>
              constructor
              · intro hcontr
                exact absurd hcontr (by simp)
              · rintro ⟨x, hx, hlx⟩
                rcases List.mem_append.mp hx with hx1 | hx2
                · have hxs : x = s := List.mem_singleton.mp hx1
                  subst hxs
                  exact absurd ((lookupContent_eq_none_iff df x).mpr hlx) (by simp [hc])
                · exact absurd (ih.mpr ⟨x, hx2, hlx⟩) (by simp [hr])
    | multi ss =>
      by_cases h1 : (ss.isEmpty || ss.contains "Skip") = true
      · simp only [generateParts, referencedTitles]
        rw [if_pos h1, if_pos h1]
        simpa using ih
      · simp only [generateParts, referencedTitles]
        rw [if_neg h1, if_neg h1]
        cases hc : resolveList df (ss.filter fun s => ¬(s = "Skip" ∨ s = "Write your own")) with
        | none =>
          constructor
          · intro _
            obtain ⟨x, hx, hlx⟩ := (resolveList_eq_none_iff df _).mp hc
            exact ⟨x, List.mem_append_left _ hx, (lookupContent_eq_none_iff df x).mp hlx⟩
          · intro _
            trivial
        | some cs =>
          cases hr : generateParts rest df with
          | none =>
            constructor
            · intro _
              obtain ⟨x, hx, hlx⟩ := ih.mp hr
              exact ⟨x, List.mem_append_right _ hx, hlx⟩
            · intro _
              trivial
          | some tl =>
            constructor
            · intro hcontr
              exact absurd hcontr (by simp)
            · rintro ⟨x, hx, hlx⟩
              rcases List.mem_append.mp hx with hx1 | hx2
              · have hlk : lookupContent df x = none := (lookupContent_eq_none_iff df x).mpr hlx
                have hnone := (resolveList_eq_none_iff df _).mpr ⟨x, hx1, hlk⟩
                rw [hnone] at hc
                cases hc
              · exact absurd (ih.mpr ⟨x, hx2, hlx⟩) (by simp [hr])

/-! ## C5: multi-selection block assembly -/

/-- C5: a non-omitted multi-selection emits one block consisting of the
section label, a colon and a newline, then the newline-join of the custom
string (first, when `Write your own` is among the selections) followed by
the resolved content of every other selected title in selection order
(the order of the `ss` list, not table storage order). -/
theorem C5_multi_block (df : List Element) (sec cust : String) (ss : List String)
    (rest : List (String × SectionData)) (f : String → String) (tl : List String)
    (hne : ss ≠ []) (hskip : ss.contains "Skip" = false)
    (hf : ∀ s ∈ ss, s ≠ "Skip" → s ≠ "Write your own" → lookupContent df s = some (f s))
    (hrest : generateParts rest df = some tl) :
    generateParts ((sec, ⟨Selection.multi ss, cust⟩) :: rest) df
      = some ((pyTitle sec ++ ":\n" ++ String.intercalate "\n"
          ((if ss.contains "Write your own" then [cust] else [])
            ++ (ss.filter fun s => ¬(s = "Skip" ∨ s = "Write your own")).map f)) :: tl) := by
  have hcond : ¬((ss.isEmpty || ss.contains "Skip") = true) := by
    simp only [Bool.or_eq_true, List.isEmpty_iff, not_or]
    refine ⟨hne, fun hmem => ?_⟩
    rw [hskip] at hmem
    exact absurd hmem (by decide)
  have hres : resolveList df (ss.filter fun s => ¬(s = "Skip" ∨ s = "Write your own"))
      = some ((ss.filter fun s => ¬(s = "Skip" ∨ s = "Write your own")).map f) := by
    refine resolveList_eq_map df _ f fun s hs => ?_
    have hmem := List.mem_filter.mp hs
    have hnot : ¬(s = "Skip" ∨ s = "Write your own") := of_decide_eq_true hmem.2
    push_neg at hnot
    exact hf s hmem.1 hnot.1 hnot.2
  simp only [generateParts]
  rw [if_neg hcond, hres, hrest]

/-- Witness for C5 at the spec's example: selections
`[WriteYourOwn("X"), A, B]` with storage order `B` before `A` compose the
block `Audience:\nX\na\nb` in selection order. -/
theorem C5_witness :
    generateParts [("audience", ⟨Selection.multi ["Write your own", "A", "B"], "X"⟩)]
        [⟨"B", "audience", "b"⟩, ⟨"A", "audience", "a"⟩]
      = some ["Audience:\nX\na\nb"] := by
  have h := C5_multi_block [⟨"B", "audience", "b"⟩, ⟨"A", "audience", "a"⟩] "audience" "X"
    ["Write your own", "A", "B"] [] (fun s => if s = "A" then "a" else "b") []
    (by decide) (by decide) (by decide) rfl
  exact h.trans (by decide)

/-! ## C6: missing backing file on load -/

/-- C6: when the backing file is absent, `load_data` returns the empty
table with exactly the schema's columns, creates the file holding just the
header, and a subsequent `load_data` parses that file back with the same
header; the missing file is never an error. -/
theorem C6_load_missing_creates (fs : FileSystem) (filename : String)
    (columns : List String) (h : fs filename = none) :
    ∃ fs₁, load_data fs filename columns = some (⟨columns, []⟩, fs₁)
      ∧ fs₁ filename = some [columns]
      ∧ load_data fs₁ filename columns = some (⟨columns, []⟩, fs₁) := by
  refine ⟨fun f => if f = filename then some [columns] else fs f, ?_, ?_, ?_⟩
  · simp [load_data, h]
  · simp
  · simp [load_data]

/-- Witness for C6 at the empty file system and the elements schema. -/
theorem C6_witness :
    ((fun _ => none : FileSystem) "prompt_elements.csv" = none)
    ∧ ∃ fs₁, load_data (fun _ => none) "prompt_elements.csv" CSV_COLUMNS
          = some (⟨CSV_COLUMNS, []⟩, fs₁)
        ∧ fs₁ "prompt_elements.csv" = some [CSV_COLUMNS]
        ∧ load_data fs₁ "prompt_elements.csv" CSV_COLUMNS
          = some (⟨CSV_COLUMNS, []⟩, fs₁) :=
  ⟨rfl, C6_load_missing_creates _ _ _ rfl⟩

/-! ## C7: save/load round trip -/

/-- C7: `save_data` followed by `load_data` of the same file returns the
saved table unchanged (same rows, same order, same values), for any table;
in particular for any non-empty one. -/
theorem C7_save_load_roundtrip (fs : FileSystem) (t : Table) (filename : String)
    (cols : List String) (_hne : t.rows ≠ []) :
    load_data (save_data fs t filename) filename cols
      = some (t, save_data fs t filename) := by
  simp [load_data, save_data]

/-- Witness for C7 at a concrete one-row table. -/
theorem C7_witness :
    (Table.rows ⟨CSV_COLUMNS, [["t", "role", "c"]]⟩ ≠ [])
    ∧ load_data
        (save_data (fun _ => none) ⟨CSV_COLUMNS, [["t", "role", "c"]]⟩ "prompt_elements.csv")
        "prompt_elements.csv" CSV_COLUMNS
      = some (⟨CSV_COLUMNS, [["t", "role", "c"]]⟩,
          save_data (fun _ => none) ⟨CSV_COLUMNS, [["t", "role", "c"]]⟩ "prompt_elements.csv") :=
  ⟨by decide, C7_save_load_roundtrip _ _ _ _ (by decide)⟩

/-! ## C2: all-skip composition -/

/-- Counterexample to C2 as stated: with every section skipped and the
feedback flag set, `_generate_prompt` still appends the feedback suffix, so
the result is not the empty string. -/
theorem C2_counterexample :
    generate_prompt
      [("role", ⟨Selection.single "Skip", ""⟩), ("goal", ⟨Selection.single "Skip", ""⟩),
       ("audience", ⟨Selection.multi ["Skip"], ""⟩), ("context", ⟨Selection.multi [], ""⟩),
       ("output", ⟨Selection.multi ["Skip"], ""⟩), ("tone", ⟨Selection.single "Skip", ""⟩)]
      [] true
      = some "\n\nBefore you provide the response, please ask me any questions..."
    ∧ "\n\nBefore you provide the response, please ask me any questions..." ≠ ("" : String) :=
  ⟨rfl, by decide⟩

/-- C2 amended: with every category skipped, `compose` returns the empty
string when the feedback flag is off, and returns exactly the feedback
suffix (nothing else) when the flag is set. -/
theorem C2_all_skip (sels : List (String × SectionData)) (df : List Element)
    (h : ∀ p ∈ sels, isSkipped p.2.selected = true) :
    generate_prompt sels df false = some ""
    ∧ generate_prompt sels df true
      = some "\n\nBefore you provide the response, please ask me any questions..." := by
  have hp := generateParts_all_skipped sels df h
  refine ⟨by simp [generate_prompt, hp, String.intercalate], ?_⟩
  simp [generate_prompt, hp, String.intercalate, String.empty_append]

/-- Witness for C2 at the six all-skip sections of the builder. -/
theorem C2_witness :
    (∀ p ∈ ([("role", ⟨Selection.single "Skip", ""⟩), ("goal", ⟨Selection.single "Skip", ""⟩),
        ("audience", ⟨Selection.multi ["Skip"], ""⟩), ("context", ⟨Selection.multi [], ""⟩),
        ("output", ⟨Selection.multi ["Skip"], ""⟩), ("tone", ⟨Selection.single "Skip", ""⟩)]
        : List (String × SectionData)), isSkipped p.2.selected = true)
    ∧ generate_prompt
        [("role", ⟨Selection.single "Skip", ""⟩), ("goal", ⟨Selection.single "Skip", ""⟩),
         ("audience", ⟨Selection.multi ["Skip"], ""⟩), ("context", ⟨Selection.multi [], ""⟩),
         ("output", ⟨Selection.multi ["Skip"], ""⟩), ("tone", ⟨Selection.single "Skip", ""⟩)]
        [] false = some ""
    ∧ generate_prompt
        [("role", ⟨Selection.single "Skip", ""⟩), ("goal", ⟨Selection.single "Skip", ""⟩),
         ("audience", ⟨Selection.multi ["Skip"], ""⟩), ("context", ⟨Selection.multi [], ""⟩),
         ("output", ⟨Selection.multi ["Skip"], ""⟩), ("tone", ⟨Selection.single "Skip", ""⟩)]
        [] true
      = some "\n\nBefore you provide the response, please ask me any questions..." :=
  ⟨by decide, C2_all_skip _ [] (by decide)⟩

/-! ## C8: history append, newest-first listing, CSV export header -/

/-- The header line of the history export is the literal schema line. -/
theorem rowLine_history_columns : rowLine PROMPT_HISTORY_COLUMNS = "name,timestamp,prompt\n" :=
  rfl

/-- C8: after `save_prompt`, the browser lists the history rows
newest-first (the reverse of storage order) with the appended row first —
in particular first and alone when the history was empty — and the CSV
export's first line is the header `name,timestamp,prompt`. The history
file is assumed absent or well-formed (header row equal to the history
schema). -/
theorem C8_history_append (fs : FileSystem) (name ts prompt : String)
    (rows : List (List String))
    (h : fs "prompt_history.csv" = none ∧ rows = []
       ∨ fs "prompt_history.csv" = some (PROMPT_HISTORY_COLUMNS :: rows)) :
    ∃ fs₁, save_prompt fs name ts prompt = some fs₁
      ∧ listDescending fs₁ = some ([name, ts, prompt] :: rows.reverse)
      ∧ exportAsText fs₁
          = some ("name,timestamp,prompt\n" ++ csvLines (rows ++ [[name, ts, prompt]])) := by
  obtain ⟨hmiss, hrows⟩ | hsome := h
  · subst hrows
    have hsp : save_prompt fs name ts prompt
        = some (save_data
            (fun f => if f = "prompt_history.csv" then some [PROMPT_HISTORY_COLUMNS] else fs f)
            ⟨PROMPT_HISTORY_COLUMNS, [[name, ts, prompt]]⟩ "prompt_history.csv") := by
      simp [save_prompt, load_data, hmiss]
    refine ⟨_, hsp, ?_, ?_⟩
    · simp [listDescending, readTable, save_data]
    · simp [exportAsText, readTable, save_data, toCsvString, csvLines,
        rowLine_history_columns]
  · have hsp : save_prompt fs name ts prompt
        = some (save_data fs ⟨PROMPT_HISTORY_COLUMNS, rows ++ [[name, ts, prompt]]⟩
            "prompt_history.csv") := by
      simp [save_prompt, load_data, hsome]
    refine ⟨_, hsp, ?_, ?_⟩
    · simp [listDescending, readTable, save_data]
    · simp [exportAsText, readTable, save_data, toCsvString, csvLines,
        rowLine_history_columns]

/-- Witness for C8: append to an empty history. -/
theorem C8_witness :
    ∃ fs₁, save_prompt (fun _ => none) "demo" "2024-01-01 00:00:00" "hello" = some fs₁
      ∧ listDescending fs₁ = some [["demo", "2024-01-01 00:00:00", "hello"]]
      ∧ exportAsText fs₁
          = some ("name,timestamp,prompt\n"
              ++ csvLines ([] ++ [["demo", "2024-01-01 00:00:00", "hello"]])) := by
  have h := C8_history_append (fun _ => none) "demo" "2024-01-01 00:00:00" "hello" []
    (Or.inl ⟨rfl, rfl⟩)
  simpa using h

/-! ## C9: positional delete -/

/-- C9: deleting a valid position `p` from the element table leaves a
table with one fewer row in which the row formerly at `p` lost exactly one
occurrence, the remaining rows are the prefix before `p` followed by the
suffix after `p` (relative order and field values unchanged). -/
theorem C9_delete_frame (fs : FileSystem) (cols : List String)
    (rows : List (List String)) (p : Nat)
    (hf : fs "prompt_elements.csv" = some (cols :: rows)) (hp : p < rows.length) :
    ∃ fs₁, deleteElement fs p = some fs₁
      ∧ readTable fs₁ "prompt_elements.csv"
          = some ⟨cols, rows.take p ++ rows.drop (p + 1)⟩
      ∧ (rows.take p ++ rows.drop (p + 1)).length = rows.length - 1
      ∧ (rows.take p ++ rows.drop (p + 1)).count (rows.get ⟨p, hp⟩) + 1
          = rows.count (rows.get ⟨p, hp⟩) := by
  have herase : rows.eraseIdx p = rows.take p ++ rows.drop (p + 1) :=
    List.eraseIdx_eq_take_drop_succ rows p
  have hdel : deleteElement fs p
      = some (save_data fs ⟨cols, rows.eraseIdx p⟩ "prompt_elements.csv") := by
    simp [deleteElement, load_data, hf, hp]
  refine ⟨_, hdel, ?_, ?_, ?_⟩
  · simp [readTable, save_data, herase]
  · rw [List.length_append, List.length_take, List.length_drop]
    omega
  · have hsplit : rows = rows.take p ++ rows.get ⟨p, hp⟩ :: rows.drop (p + 1) := by
      conv_lhs => rw [← List.take_append_drop p rows]
      congr 1
      rw [List.get_eq_getElem]
      exact (List.getElem_cons_drop rows p hp).symm
    calc (rows.take p ++ rows.drop (p + 1)).count (rows.get ⟨p, hp⟩) + 1
        = (rows.take p).count (rows.get ⟨p, hp⟩)
            + ((rows.get ⟨p, hp⟩ :: rows.drop (p + 1)).count (rows.get ⟨p, hp⟩)) := by
          rw [List.count_append, List.count_cons_self]
          omega
      _ = (rows.take p ++ rows.get ⟨p, hp⟩ :: rows.drop (p + 1)).count (rows.get ⟨p, hp⟩) :=
          (List.count_append _ _ _).symm
      _ = rows.count (rows.get ⟨p, hp⟩) := by rw [← hsplit]

/-- Witness for C9: delete position 0 of a two-row table. -/
theorem C9_witness :
    ∃ fs₁, deleteElement
        (fun f => if f = "prompt_elements.csv"
          then some [CSV_COLUMNS, ["a", "role", "x"], ["b", "goal", "y"]] else none) 0
        = some fs₁
      ∧ readTable fs₁ "prompt_elements.csv"
          = some ⟨CSV_COLUMNS,
              ([["a", "role", "x"], ["b", "goal", "y"]] : List (List String)).take 0
                ++ ([["a", "role", "x"], ["b", "goal", "y"]] : List (List String)).drop 1⟩
      ∧ (([["a", "role", "x"], ["b", "goal", "y"]] : List (List String)).take 0
          ++ ([["a", "role", "x"], ["b", "goal", "y"]] : List (List String)).drop 1).length
          = ([["a", "role", "x"], ["b", "goal", "y"]] : List (List String)).length - 1
      ∧ (([["a", "role", "x"], ["b", "goal", "y"]] : List (List String)).take 0
          ++ ([["a", "role", "x"], ["b", "goal", "y"]] : List (List String)).drop 1).count
            (([["a", "role", "x"], ["b", "goal", "y"]] : List (List String)).get
              ⟨0, by decide⟩) + 1
          = ([["a", "role", "x"], ["b", "goal", "y"]] : List (List String)).count
            (([["a", "role", "x"], ["b", "goal", "y"]] : List (List String)).get
              ⟨0, by decide⟩) :=
  C9_delete_frame _ CSV_COLUMNS [["a", "role", "x"], ["b", "goal", "y"]] 0
    (by simp) (by decide)

/-! ## C10: reserved option names -/

/-- Lookups of non-reserved titles do not see the content of elements
titled `Skip` or `Write your own`. -/
theorem lookupContent_reservedAgree (df df' : List Element) (h : ReservedAgree df df')
    (s : String) (hs : s ≠ "Skip") (hw : s ≠ "Write your own") :
    lookupContent df s = lookupContent df' s := by
  induction h with
  | nil => rfl
  | @cons e e' l l' he _ ih =>
    obtain ⟨ht, _, hc⟩ := he
    by_cases hts : e.title = s
    · have hts' : e'.title = s := ht ▸ hts
      have hcc : e.content = e'.content :=
        hc (by rw [hts]; exact hs) (by rw [hts]; exact hw)
      simp [lookupContent, List.filter_cons, hts, hts', hcc]
    · have hts' : ¬e'.title = s := fun hh => hts (ht.symm ▸ hh)
      simpa [lookupContent, List.filter_cons, hts, hts'] using ih

/-- Resolving a list of non-reserved titles is invariant under changing
the content of reserved-titled elements. -/
theorem resolveList_reservedAgree (df df' : List Element) (h : ReservedAgree df df')
    (l : List String) (hl : ∀ s ∈ l, s ≠ "Skip" ∧ s ≠ "Write your own") :
    resolveList df l = resolveList df' l := by
  induction l with
  | nil => rfl
  | cons s ss ih =>
    have hs := hl s (List.mem_cons_self _ _)
    have hss := ih fun x hx => hl x (List.mem_cons_of_mem _ hx)
    simp only [resolveList, lookupContent_reservedAgree df df' h s hs.1 hs.2, hss]

/-- The composer's output is invariant under changing the stored content
of reserved-titled elements. -/
theorem generateParts_reservedAgree (df df' : List Element) (h : ReservedAgree df df')
    (sels : List (String × SectionData)) :
    generateParts sels df = generateParts sels df' := by
  induction sels with
  | nil => rfl
  | cons p rest ih =>
    obtain ⟨sec, d⟩ := p
    obtain ⟨sel, cust⟩ := d
    cases sel with
    | single s =>
      by_cases h1 : s = "Skip"
      · simp only [generateParts]
        rw [if_pos h1, if_pos h1]
        exact ih
      · by_cases h2 : s = "Write your own"
        · simp only [generateParts]
          rw [if_neg h1, if_neg h1, if_pos h2, if_pos h2, ih]
        · simp only [generateParts]
          rw [if_neg h1, if_neg h1, if_neg h2, if_neg h2, ih,
            lookupContent_reservedAgree df df' h s h1 h2]
    | multi ss =>
      by_cases h1 : (ss.isEmpty || ss.contains "Skip") = true
      · simp only [generateParts]
        rw [if_pos h1, if_pos h1]
        exact ih
      · have hres : resolveList df (ss.filter fun s => ¬(s = "Skip" ∨ s = "Write your own"))
            = resolveList df' (ss.filter fun s => ¬(s = "Skip" ∨ s = "Write your own")) := by
          refine resolveList_reservedAgree df df' h _ fun s hs => ?_
          have hnot : ¬(s = "Skip" ∨ s = "Write your own") :=
            of_decide_eq_true (List.mem_filter.mp hs).2
          push_neg at hnot
          exact hnot
        simp only [generateParts]
        rw [if_neg h1, if_neg h1, ih, hres]

/-- C10: the option names `Skip` and `Write your own` are reserved. The
prompt built by `compose` never depends on the stored content of an
element titled `Skip` or `Write your own` (changing those contents leaves
the output unchanged); selecting `Skip` omits the category, and selecting
`Write your own` emits the inline custom string in its place. -/
theorem C10_reserved_titles (df df' : List Element) (h : ReservedAgree df df')
    (sels : List (String × SectionData)) (fb : Bool) (sec cust : String)
    (rest : List (String × SectionData)) :
    generate_prompt sels df fb = generate_prompt sels df' fb
    ∧ generateParts ((sec, ⟨Selection.single "Skip", cust⟩) :: rest) df = generateParts rest df
    ∧ generateParts ((sec, ⟨Selection.single "Write your own", cust⟩) :: rest) df
        = (generateParts rest df).map fun ps => (pyTitle sec ++ ": " ++ cust) :: ps := by
  refine ⟨?_, ?_, ?_⟩
  · rw [generate_prompt, generate_prompt, generateParts_reservedAgree df df' h sels]
  · simp [generateParts]
  · simp only [generateParts]
    rw [if_neg (show ¬("Write your own" : String) = "Skip" by decide)]
    cases hr : generateParts rest df <;> simp [hr]

/-- Witness for C10: two tables differing only in the contents stored
under the reserved titles produce the same prompt. -/
theorem C10_witness :
    generate_prompt [("role", ⟨Selection.single "Skip", "c"⟩)]
        [⟨"Skip", "role", "secret"⟩, ⟨"Write your own", "goal", "hidden"⟩] true
      = generate_prompt [("role", ⟨Selection.single "Skip", "c"⟩)]
        [⟨"Skip", "role", "other"⟩, ⟨"Write your own", "goal", "visible"⟩] true
    ∧ generateParts [("role", ⟨Selection.single "Skip", "c"⟩)]
        [⟨"Skip", "role", "secret"⟩, ⟨"Write your own", "goal", "hidden"⟩]
      = generateParts [] [⟨"Skip", "role", "secret"⟩, ⟨"Write your own", "goal", "hidden"⟩]
    ∧ generateParts [("role", ⟨Selection.single "Write your own", "c"⟩)]
        [⟨"Skip", "role", "secret"⟩, ⟨"Write your own", "goal", "hidden"⟩]
      = (generateParts [] [⟨"Skip", "role", "secret"⟩, ⟨"Write your own", "goal", "hidden"⟩]).map
          fun ps => (pyTitle "role" ++ ": " ++ "c") :: ps :=
  C10_reserved_titles
    [⟨"Skip", "role", "secret"⟩, ⟨"Write your own", "goal", "hidden"⟩]
    [⟨"Skip", "role", "other"⟩, ⟨"Write your own", "goal", "visible"⟩]
    (List.Forall₂.cons ⟨rfl, rfl, fun hne _ => absurd rfl hne⟩
      (List.Forall₂.cons ⟨rfl, rfl, fun _ hne => absurd rfl hne⟩ List.Forall₂.nil))
    [("role", ⟨Selection.single "Skip", "c"⟩)] true "role" "c" []

end PB4
